import Mathlib

/-!
# Booking-app shell: session, navigation, page selection, nav bar, login and register forms

A shallow embedding of `Module 1/booking-app/src/App.jsx`.

* React state cells (`useState`) become fields of explicit state records; an event
  handler is a function from the state before the event to the state after it.
* JavaScript strings are `String`; `s.includes(t)` and `s.split(sep)[0]` are modelled on
  the character lists.
* A JavaScript object whose fields may be missing is a structure with `Option` fields
  (`none` is `undefined`).
* `alert(msg)` and `window.history.pushState(_, _, path)` are recorded in the state as
  the list of messages shown and the list of pushed paths.
-/

namespace BookingApp

/-! ## JavaScript string helpers -/

/-- JavaScript truthiness of a string: every string but the empty one is truthy. -/
def truthy (s : String) : Bool :=
  s != ""

/-- Does the character list `sub` start the list `s`, or start one of its tails?
This is the search loop behind `String.prototype.includes`. -/
def includesChars (sub : List Char) : List Char → Bool
  | [] => sub.isPrefixOf []
  | c :: cs => sub.isPrefixOf (c :: cs) || includesChars sub cs

/-- The call `s.includes(sub)`. -/
def includes (s sub : String) : Bool :=
  includesChars sub.data s.data

/-- The call `s.split(sep)` for a one-character separator, on character lists: the
pieces between the separators, in order; the result is never empty. -/
def splitChars (sep : Char) : List Char → List (List Char)
  | [] => [[]]
  | c :: cs =>
    if c = sep then [] :: splitChars sep cs
    else
      match splitChars sep cs with
      | [] => [[c]]
      | p :: ps => (c :: p) :: ps

/-- The call `s.split(sep)` for a one-character separator. -/
def split (s : String) (sep : Char) : List String :=
  (splitChars sep s.data).map String.mk

/-- The expression `s.split(sep)[0]`; `none` stands for `undefined`. -/
def splitHead (s : String) (sep : Char) : Option String :=
  (split s sep).head?

/-! ## Session State Holder (`AuthProvider`) -/

/-- The record passed to `login` and kept in `user`. Only `email`, `name` and `role`
are ever read by the application; `name` and `role` may be missing. -/
structure UserData where
  email : String
  name : Option String
  role : Option String
  deriving DecidableEq, Repr

/-- The two state cells of `AuthProvider`; `user = none` is `null`. -/
structure AuthState where
  user : Option UserData
  isAuthenticated : Bool
  deriving DecidableEq, Repr

namespace AuthProvider

/-- The initial values `useState(null)` and `useState(false)`. -/
def init : AuthState :=
  { user := none, isAuthenticated := false }

/-- The setter `setUser`. -/
def setUser (s : AuthState) (u : Option UserData) : AuthState :=
  { s with user := u }

/-- The setter `setIsAuthenticated`. -/
def setIsAuthenticated (s : AuthState) (b : Bool) : AuthState :=
  { s with isAuthenticated := b }

/-- The function `login`: `setUser(userData); setIsAuthenticated(true)`. -/
def login (s : AuthState) (userData : UserData) : AuthState :=
  setIsAuthenticated (setUser s (some userData)) true

/-- The function `logout`: `setUser(null); setIsAuthenticated(false)`. -/
def logout (s : AuthState) : AuthState :=
  setIsAuthenticated (setUser s none) false

end AuthProvider

/-- A call the session holder offers to its clients. -/
inductive AuthAction where
  | login (userData : UserData)
  | logout
  deriving DecidableEq, Repr

namespace AuthProvider

/-- One call on the session holder. -/
def step (s : AuthState) : AuthAction → AuthState
  | .login userData => login s userData
  | .logout => logout s

/-- A sequence of calls, first to last. -/
def run (s : AuthState) (calls : List AuthAction) : AuthState :=
  calls.foldl step s

end AuthProvider

/-! ## Navigation State Holder (`Router`) -/

/-- The state cell `currentPath` of `Router`, and the paths handed to
`window.history.pushState`, oldest first. -/
structure RouterState where
  currentPath : String
  pushed : List String
  deriving DecidableEq, Repr

namespace Router

/-- The initial value `useState('/')`; nothing has been pushed yet. -/
def init : RouterState :=
  { currentPath := "/", pushed := [] }

/-- The function `navigate`: `setCurrentPath(path); window.history.pushState({}, '', path)`. -/
def navigate (r : RouterState) (path : String) : RouterState :=
  { currentPath := path, pushed := r.pushed ++ [path] }

end Router

/-! ## The whole application state -/

/-- Session, navigation, and the messages shown through `alert`, oldest first. -/
structure AppState where
  auth : AuthState
  router : RouterState
  alerts : List String
  deriving DecidableEq, Repr

namespace AppState

/-- The state right after `Root` is mounted. -/
def init : AppState :=
  { auth := AuthProvider.init, router := Router.init, alerts := [] }

/-- The call `login(userData)` made from a view. -/
def login (st : AppState) (userData : UserData) : AppState :=
  { st with auth := AuthProvider.login st.auth userData }

/-- The call `logout()` made from a view. -/
def logout (st : AppState) : AppState :=
  { st with auth := AuthProvider.logout st.auth }

/-- The call `navigate(path)` made from a view. -/
def navigate (st : AppState) (path : String) : AppState :=
  { st with router := Router.navigate st.router path }

/-- The call `alert(msg)`. -/
def alert (st : AppState) (msg : String) : AppState :=
  { st with alerts := st.alerts ++ [msg] }

end AppState

/-! ## Page Selector (`App.renderPage`) -/

/-- The six page components `renderPage` can return. -/
inductive View where
  | HomePage
  | LoginPage
  | RegisterPage
  | CatalogPage
  | BookingPage
  | AdminDashboard
  deriving DecidableEq, Repr

namespace App

/-- The function `renderPage`: a `switch` on `currentPath`. -/
def renderPage (currentPath : String) (isAuthenticated : Bool) : View :=
  match currentPath with
  | "/" => View.HomePage
  | "/login" => View.LoginPage
  | "/register" => View.RegisterPage
  | "/catalog" => View.CatalogPage
  | "/booking" => if isAuthenticated then View.BookingPage else View.LoginPage
  | "/admin" => if isAuthenticated then View.AdminDashboard else View.LoginPage
  | _ => View.HomePage

/-- The page `App` shows in a given application state. -/
def page (st : AppState) : View :=
  renderPage st.router.currentPath st.auth.isAuthenticated

end App

/-! ## Nav Bar (`Navbar`) -/

/-- An entry of `navItems`; a flag that is not written in the source is `undefined`,
which is falsy, hence `false`. The icon plays no part in the logic. -/
structure NavItem where
  path : String
  label : String
  requireAuth : Bool
  adminOnly : Bool
  deriving DecidableEq, Repr

namespace Navbar

/-- The constant `navItems`. -/
def navItems : List NavItem :=
  [ { path := "/", label := "Home", requireAuth := false, adminOnly := false },
    { path := "/catalog", label := "Catalog", requireAuth := false, adminOnly := false },
    { path := "/booking", label := "My Bookings", requireAuth := true, adminOnly := false },
    { path := "/admin", label := "Admin", requireAuth := true, adminOnly := true } ]

/-- The expression `user?.role`; `none` is `undefined`. -/
def userRole (s : AuthState) : Option String :=
  s.user.bind (fun u => u.role)

/-- The callback of `navItems.map`: `null` (here `none`) for an entry that is not
rendered, the button for the entry (here the entry itself) otherwise. -/
def renderItem (s : AuthState) (item : NavItem) : Option NavItem :=
  if item.requireAuth && !s.isAuthenticated then none
  else if item.adminOnly && (userRole s != some "admin") then none
  else some item

/-- The entries the nav bar renders, in order; the desktop menu and the mobile menu
use the same callback over the same list. -/
def rendered (s : AuthState) : List NavItem :=
  navItems.filterMap (renderItem s)

end Navbar

/-! ## Login view (`LoginPage`) -/

namespace LoginPage

/-- The record `handleSubmit` passes to `login`:
`{ email, name: email.split('@')[0], role: email.includes('admin') ? 'admin' : 'user' }`. -/
def userRecord (email : String) : UserData :=
  { email := email,
    name := splitHead email '@',
    role := some (if includes email "admin" then "admin" else "user") }

/-- The handler `handleSubmit` of the login form, for the field values `email` and
`password`. -/
def handleSubmit (st : AppState) (email password : String) : AppState :=
  if truthy email && truthy password then
    (st.login (userRecord email)).navigate "/"
  else st

end LoginPage

/-! ## Register view (`RegisterPage`) -/

/-- The state cell `formData` of `RegisterPage`. -/
structure FormData where
  name : String
  email : String
  password : String
  confirmPassword : String
  deriving DecidableEq, Repr

namespace RegisterPage

/-- The message of the first `alert` in `handleSubmit`. -/
def mismatchMessage : String := "Passwords do not match!"

/-- The message of the second `alert` in `handleSubmit`. -/
def successMessage : String := "Registration successful! Please login."

/-- The handler `handleSubmit` of the register form. -/
def handleSubmit (st : AppState) (formData : FormData) : AppState :=
  if truthy formData.name && truthy formData.email && truthy formData.password
      && truthy formData.confirmPassword then
    if formData.password ≠ formData.confirmPassword then
      st.alert mismatchMessage
    else
      (st.alert successMessage).navigate "/login"
  else st

end RegisterPage

/-! ## Helper lemmas -/

theorem truthy_iff (s : String) : truthy s = true ↔ s ≠ "" := by
  simp [truthy]

theorem includesChars_iff (sub s : List Char) :
    includesChars sub s = true ↔ sub <:+: s := by
  induction s with
  | nil =>
    simp [includesChars, List.isPrefixOf_iff_prefix]
  | cons c cs ih =>
    simp only [includesChars, Bool.or_eq_true, ih, List.isPrefixOf_iff_prefix]
    rw [List.infix_cons_iff]

theorem splitChars_head (sep : Char) (l : List Char) :
    (splitChars sep l).head? = some (l.takeWhile (fun c => c != sep)) := by
  induction l with
  | nil => rfl
  | cons c cs ih =>
    by_cases h : c = sep
    · simp [splitChars, h]
    · cases hs : splitChars sep cs with
      | nil => simp [hs] at ih
      | cons p ps =>
        rw [hs] at ih
        simp at ih
        simp [splitChars, h, hs, ih]

theorem splitHead_eq (s : String) (sep : Char) :
    splitHead s sep = some (String.mk (s.data.takeWhile (fun c => c != sep))) := by
  simp [splitHead, split, List.head?_map, splitChars_head]

theorem splitHead_of_not_mem (s : String) (sep : Char) (h : sep ∉ s.data) :
    splitHead s sep = some s := by
  rw [splitHead_eq]
  have : s.data.takeWhile (fun c => c != sep) = s.data := by
    rw [List.takeWhile_eq_self_iff]
    intro c hc
    have : c ≠ sep := fun e => h (e ▸ hc)
    simpa using this
  rw [this]

theorem splitHead_of_append (pre post : String) (sep : Char) (h : sep ∉ pre.data) :
    splitHead (pre ++ String.singleton sep ++ post) sep = some pre := by
  rw [splitHead_eq]
  have hd : (pre ++ String.singleton sep ++ post).data = pre.data ++ sep :: post.data := by
    simp [String.data_append, String.singleton]
  have : (pre.data ++ sep :: post.data).takeWhile (fun c => c != sep) = pre.data := by
    rw [List.takeWhile_append_of_pos]
    · simp
    · intro c hc
      have : c ≠ sep := fun e => h (e ▸ hc)
      simpa using this
  rw [hd, this]

theorem handleSubmit_login_of_filled (st : AppState) (email password : String)
    (hEmail : email ≠ "") (hPassword : password ≠ "") :
    LoginPage.handleSubmit st email password =
      (st.login (LoginPage.userRecord email)).navigate "/" := by
  simp [LoginPage.handleSubmit, (truthy_iff email).2 hEmail, (truthy_iff password).2 hPassword]

theorem rendered_of_admin (s : AuthState) (hAuth : s.isAuthenticated = true)
    (hRole : Navbar.userRole s = some "admin") :
    Navbar.rendered s = Navbar.navItems := by
  simp [Navbar.rendered, Navbar.navItems, Navbar.renderItem, hAuth, hRole]

theorem rendered_of_non_admin (s : AuthState) (hAuth : s.isAuthenticated = true)
    (hRole : Navbar.userRole s ≠ some "admin") :
    Navbar.rendered s = Navbar.navItems.take 3 := by
  simp [Navbar.rendered, Navbar.navItems, Navbar.renderItem, hAuth, hRole]

theorem userRole_after_login (st : AppState) (email password : String)
    (hEmail : email ≠ "") (hPassword : password ≠ "") :
    Navbar.userRole (LoginPage.handleSubmit st email password).auth
      = some (if includes email "admin" then "admin" else "user") := by
  rw [handleSubmit_login_of_filled st email password hEmail hPassword]
  rfl

/-! ## Claims -/

/-- Claim C1. The page selector follows the table: the four open paths give their own
view, the two guarded paths give their view when authenticated and the login view
otherwise, and every other path gives the home view. -/
theorem C1_renderPage_table (currentPath : String) (isAuthenticated : Bool) :
    (currentPath = "/" → App.renderPage currentPath isAuthenticated = View.HomePage) ∧
    (currentPath = "/login" → App.renderPage currentPath isAuthenticated = View.LoginPage) ∧
    (currentPath = "/register" →
      App.renderPage currentPath isAuthenticated = View.RegisterPage) ∧
    (currentPath = "/catalog" →
      App.renderPage currentPath isAuthenticated = View.CatalogPage) ∧
    (currentPath = "/booking" → isAuthenticated = true →
      App.renderPage currentPath isAuthenticated = View.BookingPage) ∧
    (currentPath = "/booking" → isAuthenticated = false →
      App.renderPage currentPath isAuthenticated = View.LoginPage) ∧
    (currentPath = "/admin" → isAuthenticated = true →
      App.renderPage currentPath isAuthenticated = View.AdminDashboard) ∧
    (currentPath = "/admin" → isAuthenticated = false →
      App.renderPage currentPath isAuthenticated = View.LoginPage) ∧
    (currentPath ∉ ["/", "/login", "/register", "/catalog", "/booking", "/admin"] →
      App.renderPage currentPath isAuthenticated = View.HomePage) ∧
    (isAuthenticated = false → (currentPath = "/booking" ∨ currentPath = "/admin") →
      App.renderPage currentPath isAuthenticated = View.LoginPage ∧
      App.renderPage currentPath isAuthenticated ≠ View.BookingPage ∧
      App.renderPage currentPath isAuthenticated ≠ View.AdminDashboard) := by
  refine ⟨?_, ?_, ?_, ?_, ?_, ?_, ?_, ?_, ?_, ?_⟩
  · rintro rfl; rfl
  · rintro rfl; rfl
  · rintro rfl; rfl
  · rintro rfl; rfl
  · rintro rfl rfl; rfl
  · rintro rfl rfl; rfl
  · rintro rfl rfl; rfl
  · rintro rfl rfl; rfl
  · intro h
    simp only [List.mem_cons, List.mem_singleton, List.not_mem_nil, or_false, not_or] at h
    obtain ⟨h1, h2, h3, h4, h5, h6⟩ := h
    unfold App.renderPage
    split <;> first | rfl | contradiction
  · rintro rfl (rfl | rfl) <;> refine ⟨rfl, ?_, ?_⟩ <;> decide

/-- Witness for claim C1: an unknown path shows the home view, and the admin path
without authentication shows the login view. -/
theorem C1_renderPage_table_witness :
    App.renderPage "/profile" true = View.HomePage ∧
    App.renderPage "/admin" false = View.LoginPage :=
  ⟨(C1_renderPage_table "/profile" true).2.2.2.2.2.2.2.2.1 (by decide),
   ((C1_renderPage_table "/admin" false).2.2.2.2.2.2.2.2.2 rfl (Or.inr rfl)).1⟩

/-- Claim C2, as stated, fails: on the login view of a fresh application, submitting
the empty email with the password "secret" stores no user at all, hence no role
"user", although the empty email does not contain "admin". -/
theorem C2_counterexample :
    "secret" ≠ "" ∧ ¬ ("admin".data <:+: "".data) ∧
    (LoginPage.handleSubmit (AppState.init.navigate "/login") "" "secret").auth.user
      = none := by
  decide

/-- Claim C2, amended. For every non-empty email submitted through the login form with
a non-empty password, the session user exists afterwards and its role is "admin" when
the email contains "admin" and "user" otherwise; no other role is produced. -/
theorem C2_login_role (st : AppState) (email password : String)
    (hEmail : email ≠ "") (hPassword : password ≠ "") :
    ∃ u, (LoginPage.handleSubmit st email password).auth.user = some u ∧
      ("admin".data <:+: email.data → u.role = some "admin") ∧
      (¬ ("admin".data <:+: email.data) → u.role = some "user") ∧
      (u.role = some "admin" ∨ u.role = some "user") := by
  have he : truthy email = true := (truthy_iff email).2 hEmail
  have hp : truthy password = true := (truthy_iff password).2 hPassword
  refine ⟨LoginPage.userRecord email, ?_, ?_, ?_, ?_⟩
  · simp [LoginPage.handleSubmit, he, hp, AppState.login, AppState.navigate,
      AuthProvider.login, AuthProvider.setUser, AuthProvider.setIsAuthenticated]
  · intro h
    have hi : includes email "admin" = true := (includesChars_iff _ _).2 h
    simp [LoginPage.userRecord, hi]
  · intro h
    have hi : includes email "admin" = false := by
      rw [← Bool.not_eq_true]
      exact fun hc => h ((includesChars_iff _ _).1 hc)
    simp [LoginPage.userRecord, hi]
  · cases hi : includes email "admin" <;> simp [LoginPage.userRecord, hi]

/-- Witness for claim C2: the emails "admin@test.com" and "bob@test.com". -/
theorem C2_login_role_witness :
    (∃ u, (LoginPage.handleSubmit AppState.init "admin@test.com" "pw").auth.user = some u ∧
      u.role = some "admin") ∧
    (∃ u, (LoginPage.handleSubmit AppState.init "bob@test.com" "pw").auth.user = some u ∧
      u.role = some "user") := by
  constructor
  · obtain ⟨u, hu, ha, _, _⟩ :=
      C2_login_role AppState.init "admin@test.com" "pw" (by decide) (by decide)
    exact ⟨u, hu, ha (by decide)⟩
  · obtain ⟨u, hu, _, hn, _⟩ :=
      C2_login_role AppState.init "bob@test.com" "pw" (by decide) (by decide)
    exact ⟨u, hu, hn (by decide)⟩

/-- Claim C3, as stated, fails: the session holder's login called with a record that
has only the email "admin@test.com" stores that record as it is, with no role and no
name; it derives neither. -/
theorem C3_counterexample :
    (AuthProvider.login AuthProvider.init
        { email := "admin@test.com", name := none, role := none }).user
      = some { email := "admin@test.com", name := none, role := none } ∧
    ¬ ∃ u, (AuthProvider.login AuthProvider.init
        { email := "admin@test.com", name := none, role := none }).user = some u ∧
      u.role = some "admin" ∧ u.name = some "admin" := by
  decide

/-- Claim C3, amended. For every prior session state and every record, the session
holder's login sets isAuthenticated to true and sets user to the record exactly as it
was passed: role and name are those the record supplies, and stay missing when it
supplies none. -/
theorem C3_login_stores_record (s : AuthState) (userData : UserData) :
    (AuthProvider.login s userData).isAuthenticated = true ∧
    (AuthProvider.login s userData).user = some userData :=
  ⟨rfl, rfl⟩

/-- Claim C4. From every prior session state, logout yields isAuthenticated = false
and user = null; being a total function, it has no failing case. -/
theorem C4_logout_clears (s : AuthState) :
    (AuthProvider.logout s).isAuthenticated = false ∧
    (AuthProvider.logout s).user = none ∧
    AuthProvider.logout s = AuthProvider.init :=
  ⟨rfl, rfl, rfl⟩

/-- Claim C5. In the initial session state and after any sequence of login and logout
calls from it, user is null exactly when isAuthenticated is false. -/
theorem C5_session_invariant (calls : List AuthAction) :
    (AuthProvider.run AuthProvider.init calls).user = none ↔
      (AuthProvider.run AuthProvider.init calls).isAuthenticated = false := by
  have key : ∀ (cs : List AuthAction) (s : AuthState),
      (s.user = none ↔ s.isAuthenticated = false) →
      ((AuthProvider.run s cs).user = none ↔
        (AuthProvider.run s cs).isAuthenticated = false) := by
    intro cs
    induction cs with
    | nil => intro s hs; exact hs
    | cons c cs ih =>
      intro s _
      have hstep : (AuthProvider.step s c).user = none ↔
          (AuthProvider.step s c).isAuthenticated = false := by
        cases c <;>
          simp [AuthProvider.step, AuthProvider.login, AuthProvider.logout,
            AuthProvider.setUser, AuthProvider.setIsAuthenticated]
      exact ih (AuthProvider.step s c) hstep
  exact key calls AuthProvider.init (by simp [AuthProvider.init])

/-- Claim C6. From every application state, submitting the login form with a non-empty
email and a non-empty password gives isAuthenticated = true and currentPath = "/";
when the email or the password is empty the whole state is left as it was. -/
theorem C6_login_submit (st : AppState) (email password : String) :
    (email ≠ "" → password ≠ "" →
      (LoginPage.handleSubmit st email password).auth.isAuthenticated = true ∧
      (LoginPage.handleSubmit st email password).router.currentPath = "/") ∧
    (email = "" ∨ password = "" → LoginPage.handleSubmit st email password = st) := by
  constructor
  · intro he hp
    rw [handleSubmit_login_of_filled st email password he hp]
    exact ⟨rfl, rfl⟩
  · rintro (rfl | rfl) <;> simp [LoginPage.handleSubmit, truthy]

/-- Witness for claim C6: a filled form on the login view logs in and goes home; a
form with an empty password changes nothing. -/
theorem C6_login_submit_witness :
    ((LoginPage.handleSubmit (AppState.init.navigate "/login") "bob@test.com"
        "pw").auth.isAuthenticated = true ∧
      (LoginPage.handleSubmit (AppState.init.navigate "/login") "bob@test.com"
        "pw").router.currentPath = "/") ∧
    LoginPage.handleSubmit (AppState.init.navigate "/login") "bob@test.com" ""
      = AppState.init.navigate "/login" :=
  ⟨(C6_login_submit (AppState.init.navigate "/login") "bob@test.com" "pw").1
      (by decide) (by decide),
   (C6_login_submit (AppState.init.navigate "/login") "bob@test.com" "").2 (Or.inr rfl)⟩

/-- Claim C7. For every session state the nav bar renders the fixed list with exactly
the entries removed whose requireAuth flag is set while isAuthenticated is false or
whose adminOnly flag is set while the user role is not "admin": Home and Catalog when
not authenticated, these and My Bookings for an authenticated non-admin, all four for
an authenticated admin; My Bookings and Admin never appear when not authenticated. -/
theorem C7_navbar_entries (s : AuthState) :
    Navbar.rendered s = Navbar.navItems.filter (fun item =>
      !(item.requireAuth && !s.isAuthenticated) &&
      !(item.adminOnly && (Navbar.userRole s != some "admin"))) ∧
    (s.isAuthenticated = false →
      (Navbar.rendered s).map NavItem.label = ["Home", "Catalog"]) ∧
    (s.isAuthenticated = true → Navbar.userRole s ≠ some "admin" →
      (Navbar.rendered s).map NavItem.label = ["Home", "Catalog", "My Bookings"]) ∧
    (s.isAuthenticated = true → Navbar.userRole s = some "admin" →
      (Navbar.rendered s).map NavItem.label = ["Home", "Catalog", "My Bookings", "Admin"]) ∧
    (s.isAuthenticated = false →
      ∀ item ∈ Navbar.rendered s, item.label ≠ "My Bookings" ∧ item.label ≠ "Admin") := by
  have hFalse : s.isAuthenticated = false →
      Navbar.rendered s = Navbar.navItems.take 2 := by
    intro h
    simp [Navbar.rendered, Navbar.navItems, Navbar.renderItem, h]
  refine ⟨?_, ?_, ?_, ?_, ?_⟩
  · cases ha : s.isAuthenticated <;> cases hr : (Navbar.userRole s != some "admin") <;>
      simp [Navbar.rendered, Navbar.navItems, Navbar.renderItem, ha, hr, List.filter]
  · intro h
    rw [hFalse h]
    rfl
  · intro h hr
    simp [Navbar.rendered, Navbar.navItems, Navbar.renderItem, h, hr]
  · intro h hr
    simp [Navbar.rendered, Navbar.navItems, Navbar.renderItem, h, hr]
  · intro h item hitem
    rw [hFalse h] at hitem
    simp [Navbar.navItems] at hitem
    rcases hitem with rfl | rfl <;> decide

/-- Witness for claim C7: the three kinds of session. -/
theorem C7_navbar_entries_witness :
    (Navbar.rendered AuthProvider.init).map NavItem.label = ["Home", "Catalog"] ∧
    (Navbar.rendered (AuthProvider.login AuthProvider.init
        (LoginPage.userRecord "bob@test.com"))).map NavItem.label
      = ["Home", "Catalog", "My Bookings"] ∧
    (Navbar.rendered (AuthProvider.login AuthProvider.init
        (LoginPage.userRecord "admin@test.com"))).map NavItem.label
      = ["Home", "Catalog", "My Bookings", "Admin"] :=
  ⟨(C7_navbar_entries AuthProvider.init).2.1 rfl,
   (C7_navbar_entries (AuthProvider.login AuthProvider.init
      (LoginPage.userRecord "bob@test.com"))).2.2.1 rfl (by decide),
   (C7_navbar_entries (AuthProvider.login AuthProvider.init
      (LoginPage.userRecord "admin@test.com"))).2.2.2.1 rfl (by decide)⟩

/-- Claim C8. When name, email, password and confirmPassword are all non-empty and the
two passwords are equal, submitting the register form shows the success
acknowledgment, sets currentPath to "/login" and leaves the session state untouched. -/
theorem C8_register_success (st : AppState) (formData : FormData)
    (hName : formData.name ≠ "") (hEmail : formData.email ≠ "")
    (hPassword : formData.password ≠ "") (hConfirm : formData.confirmPassword ≠ "")
    (hMatch : formData.password = formData.confirmPassword) :
    (RegisterPage.handleSubmit st formData).alerts
      = st.alerts ++ ["Registration successful! Please login."] ∧
    (RegisterPage.handleSubmit st formData).router.currentPath = "/login" ∧
    (RegisterPage.handleSubmit st formData).auth = st.auth := by
  have hn : truthy formData.name = true := (truthy_iff _).2 hName
  have he : truthy formData.email = true := (truthy_iff _).2 hEmail
  have hp : truthy formData.password = true := (truthy_iff _).2 hPassword
  have hc : truthy formData.confirmPassword = true := (truthy_iff _).2 hConfirm
  have hs : RegisterPage.handleSubmit st formData
      = (st.alert RegisterPage.successMessage).navigate "/login" := by
    unfold RegisterPage.handleSubmit
    rw [hn, he, hp, hc]
    simp [hMatch]
  rw [hs]
  exact ⟨rfl, rfl, rfl⟩

/-- Witness for claim C8: a complete form with matching passwords, on the register
view of a fresh application. -/
theorem C8_register_success_witness :
    (RegisterPage.handleSubmit (AppState.init.navigate "/register")
        { name := "Bob", email := "bob@test.com", password := "pw",
          confirmPassword := "pw" }).alerts
      = (AppState.init.navigate "/register").alerts
        ++ ["Registration successful! Please login."] ∧
    (RegisterPage.handleSubmit (AppState.init.navigate "/register")
        { name := "Bob", email := "bob@test.com", password := "pw",
          confirmPassword := "pw" }).router.currentPath = "/login" ∧
    (RegisterPage.handleSubmit (AppState.init.navigate "/register")
        { name := "Bob", email := "bob@test.com", password := "pw",
          confirmPassword := "pw" }).auth = (AppState.init.navigate "/register").auth :=
  C8_register_success (AppState.init.navigate "/register")
    { name := "Bob", email := "bob@test.com", password := "pw", confirmPassword := "pw" }
    (by decide) (by decide) (by decide) (by decide) (by decide)

/-- Claim C9, as stated, fails: with an empty name, passwords "a" and "b" and a
non-empty email, the form is not a complete form with matching passwords, yet
submitting it shows no acknowledgment at all: the state is left as it was. -/
theorem C9_counterexample :
    ¬ (("" : String) ≠ "" ∧ "bob@test.com" ≠ "" ∧ "a" ≠ "" ∧ "b" ≠ "" ∧ "a" = "b") ∧
    (RegisterPage.handleSubmit (AppState.init.navigate "/register")
        { name := "", email := "bob@test.com", password := "a",
          confirmPassword := "b" }).alerts = [] ∧
    (RegisterPage.handleSubmit (AppState.init.navigate "/register")
        { name := "", email := "bob@test.com", password := "a",
          confirmPassword := "b" }).alerts
      ≠ (AppState.init.navigate "/register").alerts ++ ["Passwords do not match!"] := by
  decide

/-- Claim C9, amended. For every register form state that is not a complete form with
matching passwords, submitting performs no navigation and leaves the session alone;
when all four fields are non-empty (so the passwords differ) it shows the mismatch
acknowledgment, and when some field is empty it shows nothing and changes nothing. -/
theorem C9_register_failure (st : AppState) (formData : FormData)
    (hBad : ¬ (formData.name ≠ "" ∧ formData.email ≠ "" ∧ formData.password ≠ "" ∧
      formData.confirmPassword ≠ "" ∧ formData.password = formData.confirmPassword)) :
    (RegisterPage.handleSubmit st formData).router = st.router ∧
    (RegisterPage.handleSubmit st formData).auth = st.auth ∧
    (formData.name ≠ "" ∧ formData.email ≠ "" ∧ formData.password ≠ "" ∧
        formData.confirmPassword ≠ "" →
      (RegisterPage.handleSubmit st formData).alerts
        = st.alerts ++ ["Passwords do not match!"]) ∧
    (formData.name = "" ∨ formData.email = "" ∨ formData.password = "" ∨
        formData.confirmPassword = "" →
      RegisterPage.handleSubmit st formData = st) := by
  by_cases hFilled : formData.name ≠ "" ∧ formData.email ≠ "" ∧ formData.password ≠ "" ∧
      formData.confirmPassword ≠ ""
  · obtain ⟨hn, he, hp, hc⟩ := hFilled
    have hNe : formData.password ≠ formData.confirmPassword :=
      fun hm => hBad ⟨hn, he, hp, hc, hm⟩
    have hs : RegisterPage.handleSubmit st formData
        = st.alert RegisterPage.mismatchMessage := by
      simp [RegisterPage.handleSubmit, (truthy_iff _).2 hn, (truthy_iff _).2 he,
        (truthy_iff _).2 hp, (truthy_iff _).2 hc, hNe]
    rw [hs]
    refine ⟨rfl, rfl, fun _ => rfl, ?_⟩
    rintro (h | h | h | h) <;> contradiction
  · have hs : RegisterPage.handleSubmit st formData = st := by
      have : ¬ (truthy formData.name = true ∧ truthy formData.email = true ∧
          truthy formData.password = true ∧ truthy formData.confirmPassword = true) := by
        simpa only [truthy_iff] using hFilled
      simp only [RegisterPage.handleSubmit, Bool.and_eq_true, and_assoc]
      rw [if_neg this]
    rw [hs]
    exact ⟨rfl, rfl, fun h => absurd h hFilled, fun _ => rfl⟩

/-- Witness for claim C9: the scenario with password "a" and confirmPassword "b", the
other fields non-empty, on the register view. -/
theorem C9_register_failure_witness :
    (RegisterPage.handleSubmit (AppState.init.navigate "/register")
        { name := "Bob", email := "bob@test.com", password := "a",
          confirmPassword := "b" }).router.currentPath = "/register" ∧
    (RegisterPage.handleSubmit (AppState.init.navigate "/register")
        { name := "Bob", email := "bob@test.com", password := "a",
          confirmPassword := "b" }).alerts = ["Passwords do not match!"] := by
  have h := C9_register_failure (AppState.init.navigate "/register")
    { name := "Bob", email := "bob@test.com", password := "a", confirmPassword := "b" }
    (by decide)
  refine ⟨?_, ?_⟩
  · rw [h.1]
    rfl
  · rw [h.2.2.1 (by decide)]
    rfl

/-- Claim C10. For every non-empty email submitted through the login form with a
non-empty password, the session user has that email unchanged and as name the part of
the email before its first "@" (the whole email when it has none); for
"admin@test.com" the name is "admin", the role is "admin", and the Admin entry is among
the entries the nav bar renders afterwards. -/
theorem C10_login_name (st : AppState) (email password : String)
    (hEmail : email ≠ "") (hPassword : password ≠ "") :
    ∃ u, (LoginPage.handleSubmit st email password).auth.user = some u ∧
      u.email = email ∧
      ('@' ∉ email.data → u.name = some email) ∧
      (∀ pre post : String, email = pre ++ "@" ++ post → '@' ∉ pre.data →
        u.name = some pre) ∧
      (email = "admin@test.com" →
        u.name = some "admin" ∧ u.role = some "admin" ∧
        ∃ item ∈ Navbar.rendered (LoginPage.handleSubmit st email password).auth,
          item.label = "Admin") := by
  rw [handleSubmit_login_of_filled st email password hEmail hPassword]
  refine ⟨LoginPage.userRecord email, rfl, rfl, ?_, ?_, ?_⟩
  · intro h
    exact splitHead_of_not_mem email '@' h
  · rintro pre post rfl h
    exact splitHead_of_append pre post '@' h
  · rintro rfl
    refine ⟨by decide, by decide, ?_⟩
    have hr : Navbar.rendered
        ((st.login (LoginPage.userRecord "admin@test.com")).navigate "/").auth
          = Navbar.navItems :=
      rendered_of_admin _ rfl rfl
    rw [hr]
    exact ⟨{ path := "/admin", label := "Admin", requireAuth := true, adminOnly := true },
      by decide, rfl⟩

/-- Witness for claim C10: the email "admin@test.com" with the password "pw". -/
theorem C10_login_name_witness :
    ∃ u, (LoginPage.handleSubmit AppState.init "admin@test.com" "pw").auth.user = some u ∧
      u.email = "admin@test.com" ∧ u.name = some "admin" ∧ u.role = some "admin" ∧
      ∃ item ∈ Navbar.rendered
          (LoginPage.handleSubmit AppState.init "admin@test.com" "pw").auth,
        item.label = "Admin" := by
  obtain ⟨u, hu, he, _, _, hs⟩ :=
    C10_login_name AppState.init "admin@test.com" "pw" (by decide) (by decide)
  exact ⟨u, hu, he, (hs rfl).1, (hs rfl).2.1, (hs rfl).2.2⟩

/-- Claim C11. The admin guard looks at authentication only: in every application
state with isAuthenticated true and currentPath "/admin" the page selector gives the
admin view, whatever the user record and its role are. Hence logging in with a
non-empty email that does not contain "admin" and then navigating to "/admin" reaches a
state whose user has the role "user", where the nav bar renders no Admin entry and the
page selector renders the admin view. -/
theorem C11_admin_guard_ignores_role (st : AppState) (email password : String) :
    (st.auth.isAuthenticated = true → st.router.currentPath = "/admin" →
      App.page st = View.AdminDashboard) ∧
    (email ≠ "" → password ≠ "" → ¬ ("admin".data <:+: email.data) →
      Navbar.userRole
          ((LoginPage.handleSubmit st email password).navigate "/admin").auth
        = some "user" ∧
      (∀ item ∈ Navbar.rendered
          ((LoginPage.handleSubmit st email password).navigate "/admin").auth,
        item.label ≠ "Admin") ∧
      App.page ((LoginPage.handleSubmit st email password).navigate "/admin")
        = View.AdminDashboard) := by
  constructor
  · intro hAuth hPath
    unfold App.page
    rw [hAuth, hPath]
    rfl
  · intro hEmail hPassword hNot
    have hi : includes email "admin" = false := by
      rw [← Bool.not_eq_true]
      exact fun hc => hNot ((includesChars_iff _ _).1 hc)
    have hRole : Navbar.userRole
        ((LoginPage.handleSubmit st email password).navigate "/admin").auth
          = some "user" := by
      have h := userRole_after_login st email password hEmail hPassword
      rw [hi] at h
      exact h
    have hAuth : ((LoginPage.handleSubmit st email password).navigate
        "/admin").auth.isAuthenticated = true := by
      rw [handleSubmit_login_of_filled st email password hEmail hPassword]
      rfl
    refine ⟨hRole, ?_, ?_⟩
    · intro item hitem
      rw [rendered_of_non_admin _ hAuth (by rw [hRole]; decide)] at hitem
      simp [Navbar.navItems] at hitem
      rcases hitem with rfl | rfl | rfl <;> decide
    · unfold App.page
      rw [hAuth]
      rfl

/-- Witness for claim C11: from a fresh application, logging in as "bob@test.com" and
navigating to "/admin" shows the admin view while the nav bar lists only Home, Catalog
and My Bookings. -/
theorem C11_admin_guard_ignores_role_witness :
    App.page ((LoginPage.handleSubmit AppState.init "bob@test.com" "pw").navigate
      "/admin") = View.AdminDashboard ∧
    (∀ item ∈ Navbar.rendered
        ((LoginPage.handleSubmit AppState.init "bob@test.com" "pw").navigate
          "/admin").auth,
      item.label ≠ "Admin") ∧
    (Navbar.rendered
        ((LoginPage.handleSubmit AppState.init "bob@test.com" "pw").navigate
          "/admin").auth).map NavItem.label = ["Home", "Catalog", "My Bookings"] := by
  have h := (C11_admin_guard_ignores_role AppState.init "bob@test.com" "pw").2
    (by decide) (by decide) (by decide)
  exact ⟨h.2.2, h.2.1, by decide⟩

end BookingApp
